import Mathlib

/-!
Verification of the ansible-solace reconcile modules
(`solace_client.py` and `solace_vpn.py`) against their specification.

The two module files are embedded directly.  The shared helper module
`solace_utils` (`su`) is not part of the sources; the parts of it the
modules call (`merge_dicts`, the path constants, the request helpers and
the `SolaceTask.do_task` reconcile driver) are modelled from the spec, as
marked in their doc comments.
-/

namespace Solace

/-- JSON scalar values appearing in settings dictionaries. -/
inductive JVal where
  | str (s : String)
  | bool (b : Bool)
  | num (n : Int)
deriving DecidableEq, Repr

/-- A Python dict of JSON values, modelled as a sequence of assignments;
`SDict.lookup` takes the LAST assignment of a key, so appending a
dictionary is extensionally Python's `dict.update`. -/
abbrev SDict := List (String × JVal)

/-- Last-assignment-wins lookup: the value of key `k` in the dict. -/
def SDict.lookup : SDict → String → Option JVal
  | [], _ => none
  | p :: rest, k =>
    match SDict.lookup rest k with
    | some v => some v
    | none => if p.1 = k then some p.2 else none

/-- Python `d.update(other)`: the assignments of `other` come last, so
under `SDict.lookup` every key of `other` wins over `d`. -/
def SDict.update (d other : SDict) : SDict := d ++ other

/-- Modelled from the spec: `su.merge_dicts`, from the `solace_utils`
helper module missing from the sources.  The spec describes it as "an
explicit ordered merge function taking (defaults, mandatory, overrides)
with mandatory always winning": desired settings override any default
field, mandatory key fields always win, and an omitted (`None`) settings
argument contributes nothing. -/
def merge_dicts (defaults mandatory : SDict) (settings : Option SDict) : SDict :=
  SDict.update (SDict.update defaults (settings.getD [])) mandatory

/-- Modelled from the spec: constant `su.SEMP_V2_CONFIG` of the missing
`solace_utils` module; the spec routes every request under
`/SEMP/v2/config`. -/
def SEMP_V2_CONFIG : String := "/SEMP/v2/config"

/-- Modelled from the spec: constant `su.MSG_VPNS` of the missing
`solace_utils` module; the spec names the VPN collection `msgVpns`. -/
def MSG_VPNS : String := "msgVpns"

/-- Modelled from the spec: constant `su.CLIENT_USERNAMES` of the missing
`solace_utils` module; the spec names the client collection
`clientUsernames`. -/
def CLIENT_USERNAMES : String := "clientUsernames"

/-- HTTP methods used by the SEMP v2 config API. -/
inductive Method where
  | GET
  | POST
  | PATCH
  | DELETE
deriving DecidableEq, Repr

/-- One HTTP request issued against the appliance. -/
structure Request where
  method : Method
  path : String
  body : Option SDict
deriving DecidableEq, Repr

/-- A request that changes appliance state (anything but a GET). -/
def Request.isMutating (r : Request) : Bool :=
  match r.method with
  | Method.GET => false
  | _ => true

/-- `SolaceClientTask.get_func`: GET of all clients of a VPN, read path
`[SEMP_V2_CONFIG, MSG_VPNS, vpn, CLIENT_USERNAMES]` keyed by
`clientUsername` (solace_client.py lines 22-25; the join of the path
array into a URL happens in the missing `su.get_configuration`, which the
spec describes as a GET against `scope/<collection>`). -/
def SolaceClientTask.get_func (vpn : String) : Request :=
  ⟨Method.GET, String.intercalate "/" [SEMP_V2_CONFIG, MSG_VPNS, vpn, CLIENT_USERNAMES], none⟩

/-- `SolaceClientTask.create_func` (solace_client.py lines 27-38): POST to
the client collection with the merge of defaults, mandatory key and
settings. -/
def SolaceClientTask.create_func (vpn client : String) (settings : Option SDict) : Request :=
  ⟨Method.POST,
   String.intercalate "/" [SEMP_V2_CONFIG, MSG_VPNS, vpn, CLIENT_USERNAMES],
   some (merge_dicts [("enabled", JVal.bool true)] [("clientUsername", JVal.str client)] settings)⟩

/-- `SolaceClientTask.update_func` (solace_client.py lines 40-43): PATCH of
one client, body is the settings as given. -/
def SolaceClientTask.update_func (vpn client : String) (settings : Option SDict) : Request :=
  ⟨Method.PATCH,
   String.intercalate "/" [SEMP_V2_CONFIG, MSG_VPNS, vpn, CLIENT_USERNAMES, client],
   settings⟩

/-- `SolaceClientTask.delete_func` (solace_client.py lines 45-48): DELETE of
one client, no body. -/
def SolaceClientTask.delete_func (vpn client : String) : Request :=
  ⟨Method.DELETE,
   String.intercalate "/" [SEMP_V2_CONFIG, MSG_VPNS, vpn, CLIENT_USERNAMES, client],
   none⟩

/-- `SolaceVpnTask.get_func` (solace_vpn.py lines 103-105): GET of all
VPNs, keyed by `msgVpnName`. -/
def SolaceVpnTask.get_func : Request :=
  ⟨Method.GET, String.intercalate "/" [SEMP_V2_CONFIG, MSG_VPNS], none⟩

/-- `SolaceVpnTask.create_func` (solace_vpn.py lines 107-117). -/
def SolaceVpnTask.create_func (vpn : String) (settings : Option SDict) : Request :=
  ⟨Method.POST,
   String.intercalate "/" [SEMP_V2_CONFIG, MSG_VPNS],
   some (merge_dicts [("enabled", JVal.bool true)] [("msgVpnName", JVal.str vpn)] settings)⟩

/-- `SolaceVpnTask.update_func` (solace_vpn.py lines 119-122). -/
def SolaceVpnTask.update_func (vpn : String) (settings : Option SDict) : Request :=
  ⟨Method.PATCH, String.intercalate "/" [SEMP_V2_CONFIG, MSG_VPNS, vpn], settings⟩

/-- `SolaceVpnTask.delete_func` (solace_vpn.py lines 124-127). -/
def SolaceVpnTask.delete_func (vpn : String) : Request :=
  ⟨Method.DELETE, String.intercalate "/" [SEMP_V2_CONFIG, MSG_VPNS, vpn], none⟩

/-- Desired lifecycle of the target object (the module's `state` option). -/
inductive Lifecycle where
  | present
  | absent
deriving DecidableEq, Repr

/-- DesiredState of the spec: natural key, optional settings dict and
target lifecycle. -/
structure DesiredState where
  naturalKey : String
  settings : Option SDict
  lifecycle : Lifecycle
deriving DecidableEq, Repr

/-- Locate the record whose natural-key field equals `name` in a fetched
CurrentState (first match in appliance order). -/
def findRecord (records : List SDict) (keyField name : String) : Option SDict :=
  records.find? (fun r => decide (SDict.lookup r keyField = some (JVal.str name)))

/-- CurrentState held by the appliance for one parent scope. -/
structure Broker where
  records : List SDict
deriving DecidableEq, Repr

/-- Modelled from the spec: the appliance side of the missing transport
helpers (`su.make_post_request`, `su.make_patch_request`,
`su.make_delete_request`): POST adds the body as a new record, PATCH
merges the body into the record identified by `name`, DELETE removes it;
the appliance answers a mutating call with the affected object's
resulting body, which the module reports as `response`. -/
def Broker.apply (b : Broker) (keyField name : String) (r : Request) : Broker × SDict :=
  match r.method with
  | Method.GET => (b, [])
  | Method.POST => (⟨b.records ++ [r.body.getD []]⟩, r.body.getD [])
  | Method.PATCH =>
    (⟨b.records.map (fun rec =>
        if SDict.lookup rec keyField = some (JVal.str name)
        then SDict.update rec (r.body.getD []) else rec)⟩,
     SDict.update ((findRecord b.records keyField name).getD []) (r.body.getD []))
  | Method.DELETE =>
    (⟨b.records.filter (fun rec => !(decide (SDict.lookup rec keyField = some (JVal.str name))))⟩,
     [])

/-- Outcome of one invocation: changed flag and the appliance response
body (null when no mutating call was made). -/
structure Outcome where
  changed : Bool
  response : Option SDict
deriving DecidableEq, Repr

/-- The per-module operations a reconcile run dispatches to. -/
structure TaskOps where
  keyField : String
  getReq : Request
  createReq : String → Option SDict → Request
  updateReq : String → Option SDict → Request
  deleteReq : String → Request

/-- The client module's operations, scoped to one VPN (solace_client.py):
natural key `clientUsername`, requests from `SolaceClientTask`. -/
def clientOps (vpn : String) : TaskOps :=
  ⟨"clientUsername",
   SolaceClientTask.get_func vpn,
   SolaceClientTask.create_func vpn,
   SolaceClientTask.update_func vpn,
   SolaceClientTask.delete_func vpn⟩

/-- The VPN module's operations (solace_vpn.py): natural key `msgVpnName`,
requests from `SolaceVpnTask`. -/
def vpnOps : TaskOps :=
  ⟨"msgVpnName",
   SolaceVpnTask.get_func,
   SolaceVpnTask.create_func,
   SolaceVpnTask.update_func,
   SolaceVpnTask.delete_func⟩

/-- Modelled from the spec: `su.SolaceTask.do_task`, the reconcile driver
of the missing `solace_utils` module.  Per the spec's algorithm: fetch
CurrentState with a GET, locate the record by natural key, then apply the
decision table — absent record and lifecycle=present creates; present
record and lifecycle=present updates with desired settings when they are
non-empty and is a no-op when they are empty; lifecycle=absent deletes a
present record and is a no-op otherwise.  A mutating call yields
`changed=true` with the appliance's response body; a no-op yields
`changed=false, response=null`.  Returns the Outcome, the requests issued
in order, and the appliance state afterwards. -/
def reconcile (ops : TaskOps) (desired : DesiredState) (b : Broker) :
    Outcome × List Request × Broker :=
  match findRecord b.records ops.keyField desired.naturalKey, desired.lifecycle with
  | none, Lifecycle.present =>
    let req := ops.createReq desired.naturalKey desired.settings
    let res := Broker.apply b ops.keyField desired.naturalKey req
    (⟨true, some res.2⟩, [ops.getReq, req], res.1)
  | none, Lifecycle.absent => (⟨false, none⟩, [ops.getReq], b)
  | some _, Lifecycle.present =>
    if (desired.settings.getD []).isEmpty then (⟨false, none⟩, [ops.getReq], b)
    else
      let req := ops.updateReq desired.naturalKey desired.settings
      let res := Broker.apply b ops.keyField desired.naturalKey req
      (⟨true, some res.2⟩, [ops.getReq, req], res.1)
  | some _, Lifecycle.absent =>
    let req := ops.deleteReq desired.naturalKey
    let res := Broker.apply b ops.keyField desired.naturalKey req
    (⟨true, some res.2⟩, [ops.getReq, req], res.1)

/-- Result reported to the host: a normal outcome or a configuration
error raised before the task ran. -/
inductive ModuleResult where
  | ok (outcome : Outcome)
  | configError (param : String)
deriving DecidableEq, Repr

/-- Raw invocation input of the client module: the parameters a playbook
may supply (those with schema defaults are always present and are not
modelled beyond their presence). -/
structure ClientModuleInput where
  name : Option String
  msg_vpn : Option String
  settings : Option SDict
  state : Lifecycle
deriving DecidableEq, Repr

/-- Whether a given parameter was supplied; parameters with schema
defaults always count as present. -/
def ClientModuleInput.provided (inp : ClientModuleInput) : String → Bool :=
  fun param =>
    if param = "name" then inp.name.isSome
    else if param = "msg_vpn" then inp.msg_vpn.isSome
    else if param = "settings" then inp.settings.isSome
    else true

/-- Argument schema of solace_client.py `run_module` (lines 53-64):
parameter names with their required flags; `name` and `msg_vpn` are
required, the rest are optional or defaulted. -/
def clientModuleArgs : List (String × Bool) :=
  [("name", true), ("msg_vpn", true), ("host", false), ("port", false),
   ("secure_connection", false), ("username", false), ("password", false),
   ("settings", false), ("state", false), ("timeout", false)]

/-- Argument schema of solace_vpn.py `run_module` (lines 132-142): only
`name` is required. -/
def vpnModuleArgs : List (String × Bool) :=
  [("name", true), ("host", false), ("port", false),
   ("secure_connection", false), ("username", false), ("password", false),
   ("settings", false), ("state", false), ("timeout", false)]

/-- Modelled from the spec: the host runtime's enforcement of the
`required=True` flags of the argument schema (the `AnsibleModule`
boundary is outside the sources); the spec demands a ConfigError for a
missing mandatory parameter, surfaced before any network call.  Returns
the first required parameter that was not provided, if any. -/
def validateRequired (args : List (String × Bool)) (provided : String → Bool) : Option String :=
  (args.find? (fun a => a.2 && !(provided a.1))).map (fun a => a.1)

/-- `run_module` of solace_client.py (lines 51-73): validate the argument
schema, then run the task against the appliance; a validation failure is
reported before any request is issued. -/
def solace_client.run_module (inp : ClientModuleInput) (b : Broker) :
    ModuleResult × List Request × Broker :=
  match validateRequired clientModuleArgs inp.provided with
  | some missing => (ModuleResult.configError missing, [], b)
  | none =>
    let r := reconcile (clientOps (inp.msg_vpn.getD ""))
      ⟨inp.name.getD "", inp.settings, inp.state⟩ b
    (ModuleResult.ok r.1, r.2.1, r.2.2)

/-- Raw invocation input of the VPN module. -/
structure VpnModuleInput where
  name : Option String
  settings : Option SDict
  state : Lifecycle
deriving DecidableEq, Repr

/-- Whether a given parameter was supplied to the VPN module. -/
def VpnModuleInput.provided (inp : VpnModuleInput) : String → Bool :=
  fun param =>
    if param = "name" then inp.name.isSome
    else if param = "settings" then inp.settings.isSome
    else true

/-- `run_module` of solace_vpn.py (lines 130-152). -/
def solace_vpn.run_module (inp : VpnModuleInput) (b : Broker) :
    ModuleResult × List Request × Broker :=
  match validateRequired vpnModuleArgs inp.provided with
  | some missing => (ModuleResult.configError missing, [], b)
  | none =>
    let r := reconcile vpnOps ⟨inp.name.getD "", inp.settings, inp.state⟩ b
    (ModuleResult.ok r.1, r.2.1, r.2.2)

/-! ### Basic lemmas about dictionaries and record lookup -/

/-- Last-wins lookup over an append: a hit in the right part wins. -/
theorem SDict.lookup_append_some (a b : SDict) (k : String) (v : JVal)
    (h : SDict.lookup b k = some v) : SDict.lookup (a ++ b) k = some v := by
  induction a with
  | nil => simpa using h
  | cons p rest ih => simp only [List.cons_append, SDict.lookup, List.append_eq, ih]

/-- Last-wins lookup over an append: a miss in the right part defers to
the left part. -/
theorem SDict.lookup_append_none (a b : SDict) (k : String)
    (h : SDict.lookup b k = none) : SDict.lookup (a ++ b) k = SDict.lookup a k := by
  induction a with
  | nil => simpa using h
  | cons p rest ih => simp only [List.cons_append, SDict.lookup, List.append_eq, ih]

/-- The merged create body always carries the mandatory key field's value,
whatever the settings contain. -/
theorem merge_dicts_lookup_mandatory (defaults : SDict) (key : String) (v : JVal)
    (settings : Option SDict) :
    SDict.lookup (merge_dicts defaults [(key, v)] settings) key = some v := by
  have h : SDict.lookup [(key, v)] key = some v := by simp [SDict.lookup]
  exact SDict.lookup_append_some _ _ _ _ h

/-- On every field other than the mandatory key, the merged create body is
the settings value when present and the default value otherwise. -/
theorem merge_dicts_lookup_other (defaults : SDict) (key k : String) (v : JVal)
    (settings : Option SDict) (hk : k ≠ key) :
    SDict.lookup (merge_dicts defaults [(key, v)] settings) k =
      match SDict.lookup (settings.getD []) k with
      | some w => some w
      | none => SDict.lookup defaults k := by
  have h1 : SDict.lookup [(key, v)] k = none := by
    simp only [SDict.lookup]
    rw [if_neg (fun h => hk h.symm)]
  rw [show merge_dicts defaults [(key, v)] settings
        = (defaults ++ settings.getD []) ++ [(key, v)] from rfl]
  rw [SDict.lookup_append_none _ _ _ h1]
  cases h2 : SDict.lookup (settings.getD []) k with
  | some w => simp [SDict.lookup_append_some _ _ _ _ h2]
  | none => simp [SDict.lookup_append_none _ _ _ h2]

/-- After appending a record holding the natural key, lookup finds it when
nothing before matched. -/
theorem findRecord_append_single (records : List SDict) (keyField name : String) (body : SDict)
    (hnone : findRecord records keyField name = none)
    (hbody : SDict.lookup body keyField = some (JVal.str name)) :
    findRecord (records ++ [body]) keyField name = some body := by
  unfold findRecord at hnone ⊢
  rw [List.find?_append, hnone]
  simp [List.find?, hbody]

/-! ### Case-by-case characterization of a reconcile run, per module -/

/-- Client module, object absent, lifecycle=present: GET then POST of the
merged body, which is also appended on the appliance. -/
theorem client_reconcile_create (vpn name : String) (settings : Option SDict) (b : Broker)
    (hnone : findRecord b.records "clientUsername" name = none) :
    reconcile (clientOps vpn) ⟨name, settings, Lifecycle.present⟩ b =
      (⟨true, some (merge_dicts [("enabled", JVal.bool true)]
          [("clientUsername", JVal.str name)] settings)⟩,
       [SolaceClientTask.get_func vpn, SolaceClientTask.create_func vpn name settings],
       ⟨b.records ++ [merge_dicts [("enabled", JVal.bool true)]
          [("clientUsername", JVal.str name)] settings]⟩) := by
  simp [reconcile, clientOps, hnone, Broker.apply, SolaceClientTask.create_func]

/-- Client module, object absent, lifecycle=absent: GET only, nothing
changes. -/
theorem client_reconcile_absent_noop (vpn name : String) (settings : Option SDict) (b : Broker)
    (hnone : findRecord b.records "clientUsername" name = none) :
    reconcile (clientOps vpn) ⟨name, settings, Lifecycle.absent⟩ b =
      (⟨false, none⟩, [SolaceClientTask.get_func vpn], b) := by
  simp [reconcile, clientOps, hnone]

/-- Client module, object present, lifecycle=present, non-empty settings:
GET then PATCH carrying exactly the settings. -/
theorem client_reconcile_update (vpn name : String) (settings : Option SDict) (b : Broker)
    (rec : SDict) (hfound : findRecord b.records "clientUsername" name = some rec)
    (hne : (settings.getD []).isEmpty = false) :
    reconcile (clientOps vpn) ⟨name, settings, Lifecycle.present⟩ b =
      (⟨true, some (SDict.update rec (settings.getD []))⟩,
       [SolaceClientTask.get_func vpn, SolaceClientTask.update_func vpn name settings],
       ⟨b.records.map (fun r =>
          if SDict.lookup r "clientUsername" = some (JVal.str name)
          then SDict.update r (settings.getD []) else r)⟩) := by
  simp [reconcile, clientOps, hfound, hne, Broker.apply, SolaceClientTask.update_func]

/-- Client module, object present, lifecycle=present, empty settings: GET
only, nothing changes. -/
theorem client_reconcile_present_noop (vpn name : String) (settings : Option SDict) (b : Broker)
    (rec : SDict) (hfound : findRecord b.records "clientUsername" name = some rec)
    (hemp : (settings.getD []).isEmpty = true) :
    reconcile (clientOps vpn) ⟨name, settings, Lifecycle.present⟩ b =
      (⟨false, none⟩, [SolaceClientTask.get_func vpn], b) := by
  simp [reconcile, clientOps, hfound, hemp]

/-- Client module, object present, lifecycle=absent: GET then DELETE. -/
theorem client_reconcile_delete (vpn name : String) (settings : Option SDict) (b : Broker)
    (rec : SDict) (hfound : findRecord b.records "clientUsername" name = some rec) :
    reconcile (clientOps vpn) ⟨name, settings, Lifecycle.absent⟩ b =
      (⟨true, some []⟩,
       [SolaceClientTask.get_func vpn, SolaceClientTask.delete_func vpn name],
       ⟨b.records.filter (fun r =>
          !(decide (SDict.lookup r "clientUsername" = some (JVal.str name))))⟩) := by
  simp [reconcile, clientOps, hfound, Broker.apply, SolaceClientTask.delete_func]

/-- VPN module, object absent, lifecycle=present. -/
theorem vpn_reconcile_create (name : String) (settings : Option SDict) (b : Broker)
    (hnone : findRecord b.records "msgVpnName" name = none) :
    reconcile vpnOps ⟨name, settings, Lifecycle.present⟩ b =
      (⟨true, some (merge_dicts [("enabled", JVal.bool true)]
          [("msgVpnName", JVal.str name)] settings)⟩,
       [SolaceVpnTask.get_func, SolaceVpnTask.create_func name settings],
       ⟨b.records ++ [merge_dicts [("enabled", JVal.bool true)]
          [("msgVpnName", JVal.str name)] settings]⟩) := by
  simp [reconcile, vpnOps, hnone, Broker.apply, SolaceVpnTask.create_func]

/-- VPN module, object absent, lifecycle=absent. -/
theorem vpn_reconcile_absent_noop (name : String) (settings : Option SDict) (b : Broker)
    (hnone : findRecord b.records "msgVpnName" name = none) :
    reconcile vpnOps ⟨name, settings, Lifecycle.absent⟩ b =
      (⟨false, none⟩, [SolaceVpnTask.get_func], b) := by
  simp [reconcile, vpnOps, hnone]

/-- VPN module, object present, lifecycle=present, non-empty settings. -/
theorem vpn_reconcile_update (name : String) (settings : Option SDict) (b : Broker)
    (rec : SDict) (hfound : findRecord b.records "msgVpnName" name = some rec)
    (hne : (settings.getD []).isEmpty = false) :
    reconcile vpnOps ⟨name, settings, Lifecycle.present⟩ b =
      (⟨true, some (SDict.update rec (settings.getD []))⟩,
       [SolaceVpnTask.get_func, SolaceVpnTask.update_func name settings],
       ⟨b.records.map (fun r =>
          if SDict.lookup r "msgVpnName" = some (JVal.str name)
          then SDict.update r (settings.getD []) else r)⟩) := by
  simp [reconcile, vpnOps, hfound, hne, Broker.apply, SolaceVpnTask.update_func]

/-- VPN module, object present, lifecycle=present, empty settings. -/
theorem vpn_reconcile_present_noop (name : String) (settings : Option SDict) (b : Broker)
    (rec : SDict) (hfound : findRecord b.records "msgVpnName" name = some rec)
    (hemp : (settings.getD []).isEmpty = true) :
    reconcile vpnOps ⟨name, settings, Lifecycle.present⟩ b =
      (⟨false, none⟩, [SolaceVpnTask.get_func], b) := by
  simp [reconcile, vpnOps, hfound, hemp]

/-- VPN module, object present, lifecycle=absent. -/
theorem vpn_reconcile_delete (name : String) (settings : Option SDict) (b : Broker)
    (rec : SDict) (hfound : findRecord b.records "msgVpnName" name = some rec) :
    reconcile vpnOps ⟨name, settings, Lifecycle.absent⟩ b =
      (⟨true, some []⟩,
       [SolaceVpnTask.get_func, SolaceVpnTask.delete_func name],
       ⟨b.records.filter (fun r =>
          !(decide (SDict.lookup r "msgVpnName" = some (JVal.str name))))⟩) := by
  simp [reconcile, vpnOps, hfound, Broker.apply, SolaceVpnTask.delete_func]

/-- Every reconcile run is either the pure no-op outcome or issues exactly
one of the module's create/update/delete requests after the GET, reporting
the appliance's response for it. -/
theorem reconcile_cases (ops : TaskOps) (desired : DesiredState) (b : Broker) :
    reconcile ops desired b = (⟨false, none⟩, [ops.getReq], b) ∨
      ∃ req, (req = ops.createReq desired.naturalKey desired.settings ∨
              req = ops.updateReq desired.naturalKey desired.settings ∨
              req = ops.deleteReq desired.naturalKey) ∧
        reconcile ops desired b =
          (⟨true, some (Broker.apply b ops.keyField desired.naturalKey req).2⟩,
           [ops.getReq, req],
           (Broker.apply b ops.keyField desired.naturalKey req).1) := by
  unfold reconcile
  split
  · exact Or.inr ⟨_, Or.inl rfl, rfl⟩
  · exact Or.inl rfl
  · split
    · exact Or.inl rfl
    · exact Or.inr ⟨_, Or.inr (Or.inl rfl), rfl⟩
  · exact Or.inr ⟨_, Or.inr (Or.inr rfl), rfl⟩

/-- Whenever the initial GET is not mutating, a reconcile run issues at
most one mutating request. -/
theorem mutating_count_le_one (ops : TaskOps) (desired : DesiredState) (b : Broker)
    (hg : ops.getReq.isMutating = false) :
    ((reconcile ops desired b).2.1.filter Request.isMutating).length ≤ 1 := by
  rcases reconcile_cases ops desired b with h | ⟨req, _, h⟩ <;> rw [h]
  · simp [List.filter, hg]
  · cases hm : req.isMutating <;> simp [List.filter, hg, hm]

/-- C1: for every create performed by reconcile (object absent and
lifecycle=present), the POST body is the merge of the built-in defaults,
the mandatory natural-key field and desired.settings; the settings
override any default field, but the mandatory key field (clientUsername
for the client module, msgVpnName for the VPN module) always carries the
given name, even against a conflicting settings value. -/
theorem create_body_is_merge_with_mandatory_key (vpn name : String)
    (settings : Option SDict) (bc bv : Broker)
    (hc : findRecord bc.records "clientUsername" name = none)
    (hv : findRecord bv.records "msgVpnName" name = none) :
    ((reconcile (clientOps vpn) ⟨name, settings, Lifecycle.present⟩ bc).2.1 =
        [SolaceClientTask.get_func vpn, SolaceClientTask.create_func vpn name settings] ∧
      (SolaceClientTask.create_func vpn name settings).body =
        some (merge_dicts [("enabled", JVal.bool true)]
          [("clientUsername", JVal.str name)] settings) ∧
      SDict.lookup (merge_dicts [("enabled", JVal.bool true)]
          [("clientUsername", JVal.str name)] settings) "clientUsername"
        = some (JVal.str name) ∧
      ∀ k, k ≠ "clientUsername" →
        SDict.lookup (merge_dicts [("enabled", JVal.bool true)]
            [("clientUsername", JVal.str name)] settings) k =
          match SDict.lookup (settings.getD []) k with
          | some w => some w
          | none => SDict.lookup [("enabled", JVal.bool true)] k) ∧
    ((reconcile vpnOps ⟨name, settings, Lifecycle.present⟩ bv).2.1 =
        [SolaceVpnTask.get_func, SolaceVpnTask.create_func name settings] ∧
      (SolaceVpnTask.create_func name settings).body =
        some (merge_dicts [("enabled", JVal.bool true)]
          [("msgVpnName", JVal.str name)] settings) ∧
      SDict.lookup (merge_dicts [("enabled", JVal.bool true)]
          [("msgVpnName", JVal.str name)] settings) "msgVpnName"
        = some (JVal.str name) ∧
      ∀ k, k ≠ "msgVpnName" →
        SDict.lookup (merge_dicts [("enabled", JVal.bool true)]
            [("msgVpnName", JVal.str name)] settings) k =
          match SDict.lookup (settings.getD []) k with
          | some w => some w
          | none => SDict.lookup [("enabled", JVal.bool true)] k) := by
  refine ⟨⟨?_, rfl, merge_dicts_lookup_mandatory _ _ _ _,
            fun k hk => merge_dicts_lookup_other _ _ _ _ _ hk⟩,
          ⟨?_, rfl, merge_dicts_lookup_mandatory _ _ _ _,
            fun k hk => merge_dicts_lookup_other _ _ _ _ _ hk⟩⟩
  · rw [client_reconcile_create vpn name settings bc hc]
  · rw [vpn_reconcile_create name settings bv hv]

/-- Witness for C1 at vpn "v", name "foo", settings overriding `enabled`
and even attempting to override the natural key, on an empty appliance. -/
theorem create_body_is_merge_with_mandatory_key_witness :
    SDict.lookup (merge_dicts [("enabled", JVal.bool true)]
        [("clientUsername", JVal.str "foo")]
        (some [("enabled", JVal.bool false), ("clientUsername", JVal.str "evil")]))
      "clientUsername" = some (JVal.str "foo") :=
  (create_body_is_merge_with_mandatory_key "v" "foo"
    (some [("enabled", JVal.bool false), ("clientUsername", JVal.str "evil")])
    ⟨[]⟩ ⟨[]⟩ rfl rfl).1.2.2.1

/-- C5: for lifecycle=absent on a natural key matching no current record,
reconcile issues no mutating call and reports changed=false. -/
theorem absent_nonexistent_is_noop (vpn name : String) (settings : Option SDict)
    (bc bv : Broker)
    (hc : findRecord bc.records "clientUsername" name = none)
    (hv : findRecord bv.records "msgVpnName" name = none) :
    (reconcile (clientOps vpn) ⟨name, settings, Lifecycle.absent⟩ bc =
        (⟨false, none⟩, [SolaceClientTask.get_func vpn], bc) ∧
      (reconcile (clientOps vpn) ⟨name, settings, Lifecycle.absent⟩ bc).2.1.filter
        Request.isMutating = []) ∧
    (reconcile vpnOps ⟨name, settings, Lifecycle.absent⟩ bv =
        (⟨false, none⟩, [SolaceVpnTask.get_func], bv) ∧
      (reconcile vpnOps ⟨name, settings, Lifecycle.absent⟩ bv).2.1.filter
        Request.isMutating = []) := by
  constructor
  · refine ⟨client_reconcile_absent_noop vpn name settings bc hc, ?_⟩
    rw [client_reconcile_absent_noop vpn name settings bc hc]
    simp [List.filter, Request.isMutating, SolaceClientTask.get_func]
  · refine ⟨vpn_reconcile_absent_noop name settings bv hv, ?_⟩
    rw [vpn_reconcile_absent_noop name settings bv hv]
    simp [List.filter, Request.isMutating, SolaceVpnTask.get_func]

/-- Witness for C5: deleting the nonexistent client "foo" from an empty
appliance changes nothing. -/
theorem absent_nonexistent_is_noop_witness :
    reconcile (clientOps "v") ⟨"foo", none, Lifecycle.absent⟩ ⟨[]⟩ =
      (⟨false, none⟩, [SolaceClientTask.get_func "v"], ⟨[]⟩) :=
  (absent_nonexistent_is_noop "v" "foo" none ⟨[]⟩ ⟨[]⟩ rfl rfl).1.1

/-- C6: every invocation issues at most one mutating request (a single
POST, PATCH or DELETE) besides the initial GET, for both modules, on
every desired state and appliance state. -/
theorem at_most_one_mutating_request (vpn : String) (desired : DesiredState)
    (bc bv : Broker) :
    ((reconcile (clientOps vpn) desired bc).2.1.filter Request.isMutating).length ≤ 1 ∧
    ((reconcile vpnOps desired bv).2.1.filter Request.isMutating).length ≤ 1 :=
  ⟨mutating_count_le_one (clientOps vpn) desired bc rfl,
   mutating_count_le_one vpnOps desired bv rfl⟩

/-- C10: the only built-in default merged into a create is
`enabled=true`; with empty or omitted settings the POST body is exactly
the default plus the natural-key field and nothing else. -/
theorem create_body_with_empty_settings (vpn name : String) (settings : Option SDict)
    (h : settings = none ∨ settings = some []) :
    (SolaceClientTask.create_func vpn name settings).body =
      some [("enabled", JVal.bool true), ("clientUsername", JVal.str name)] ∧
    (SolaceVpnTask.create_func name settings).body =
      some [("enabled", JVal.bool true), ("msgVpnName", JVal.str name)] := by
  rcases h with h | h <;> subst h <;> exact ⟨rfl, rfl⟩

/-- Witness for C10 with omitted settings. -/
theorem create_body_with_empty_settings_witness :
    (SolaceClientTask.create_func "v" "foo" none).body =
      some [("enabled", JVal.bool true), ("clientUsername", JVal.str "foo")] :=
  (create_body_with_empty_settings "v" "foo" none (Or.inl rfl)).1

/-- C9: every request path has the SEMP v2 shape
`/SEMP/v2/config/{parentPath}/{collection}[/{key}]`: GET and POST target
the collection path (`msgVpns`, resp. `msgVpns/<vpn>/clientUsernames`),
PATCH and DELETE target the collection path with the natural key appended
as final segment. -/
theorem request_paths_follow_semp_v2 (vpn name : String) (settings : Option SDict) :
    ((SolaceClientTask.get_func vpn).method = Method.GET ∧
     (SolaceClientTask.get_func vpn).path =
       "/SEMP/v2/config/msgVpns/" ++ vpn ++ "/clientUsernames" ∧
     (SolaceClientTask.create_func vpn name settings).method = Method.POST ∧
     (SolaceClientTask.create_func vpn name settings).path =
       (SolaceClientTask.get_func vpn).path ∧
     (SolaceClientTask.update_func vpn name settings).method = Method.PATCH ∧
     (SolaceClientTask.update_func vpn name settings).path =
       (SolaceClientTask.get_func vpn).path ++ "/" ++ name ∧
     (SolaceClientTask.delete_func vpn name).method = Method.DELETE ∧
     (SolaceClientTask.delete_func vpn name).path =
       (SolaceClientTask.get_func vpn).path ++ "/" ++ name) ∧
    (SolaceVpnTask.get_func.method = Method.GET ∧
     SolaceVpnTask.get_func.path = "/SEMP/v2/config/msgVpns" ∧
     (SolaceVpnTask.create_func name settings).method = Method.POST ∧
     (SolaceVpnTask.create_func name settings).path = SolaceVpnTask.get_func.path ∧
     (SolaceVpnTask.update_func name settings).method = Method.PATCH ∧
     (SolaceVpnTask.update_func name settings).path =
       SolaceVpnTask.get_func.path ++ "/" ++ name ∧
     (SolaceVpnTask.delete_func name).method = Method.DELETE ∧
     (SolaceVpnTask.delete_func name).path =
       SolaceVpnTask.get_func.path ++ "/" ++ name) := by
  refine ⟨⟨rfl, ?_, rfl, rfl, rfl, rfl, rfl, rfl⟩, rfl, rfl, rfl, rfl, rfl, rfl, rfl, rfl⟩
  show (("/SEMP/v2/config/msgVpns/" ++ vpn) ++ "/") ++ "clientUsernames" = _
  rw [String.append_assoc]
  rfl

/-- C3: when the target object exists and lifecycle=present, non-empty
settings cause a PATCH carrying desired.settings with changed=true
regardless of any diff against the current record, while empty settings
cause no mutating call and changed=false. -/
theorem update_patch_iff_settings_nonempty (vpn name : String) (settings : Option SDict)
    (bc bv : Broker) (rc rv : SDict)
    (hc : findRecord bc.records "clientUsername" name = some rc)
    (hv : findRecord bv.records "msgVpnName" name = some rv) :
    (((settings.getD []).isEmpty = false →
        (reconcile (clientOps vpn) ⟨name, settings, Lifecycle.present⟩ bc).2.1 =
          [SolaceClientTask.get_func vpn, SolaceClientTask.update_func vpn name settings] ∧
        (SolaceClientTask.update_func vpn name settings).method = Method.PATCH ∧
        (SolaceClientTask.update_func vpn name settings).body = settings ∧
        (reconcile (clientOps vpn) ⟨name, settings, Lifecycle.present⟩ bc).1.changed = true) ∧
      ((settings.getD []).isEmpty = true →
        reconcile (clientOps vpn) ⟨name, settings, Lifecycle.present⟩ bc =
          (⟨false, none⟩, [SolaceClientTask.get_func vpn], bc) ∧
        (reconcile (clientOps vpn) ⟨name, settings, Lifecycle.present⟩ bc).2.1.filter
          Request.isMutating = [])) ∧
    (((settings.getD []).isEmpty = false →
        (reconcile vpnOps ⟨name, settings, Lifecycle.present⟩ bv).2.1 =
          [SolaceVpnTask.get_func, SolaceVpnTask.update_func name settings] ∧
        (SolaceVpnTask.update_func name settings).method = Method.PATCH ∧
        (SolaceVpnTask.update_func name settings).body = settings ∧
        (reconcile vpnOps ⟨name, settings, Lifecycle.present⟩ bv).1.changed = true) ∧
      ((settings.getD []).isEmpty = true →
        reconcile vpnOps ⟨name, settings, Lifecycle.present⟩ bv =
          (⟨false, none⟩, [SolaceVpnTask.get_func], bv) ∧
        (reconcile vpnOps ⟨name, settings, Lifecycle.present⟩ bv).2.1.filter
          Request.isMutating = [])) := by
  refine ⟨⟨fun hne => ?_, fun hemp => ?_⟩, ⟨fun hne => ?_, fun hemp => ?_⟩⟩
  · rw [client_reconcile_update vpn name settings bc rc hc hne]
    exact ⟨rfl, rfl, rfl, rfl⟩
  · rw [client_reconcile_present_noop vpn name settings bc rc hc hemp]
    exact ⟨rfl, rfl⟩
  · rw [vpn_reconcile_update name settings bv rv hv hne]
    exact ⟨rfl, rfl, rfl, rfl⟩
  · rw [vpn_reconcile_present_noop name settings bv rv hv hemp]
    exact ⟨rfl, rfl⟩

/-- Witness for C3: appliances holding exactly the target records; the
non-empty settings {enabled:true} trigger the PATCH even though they do
not differ from the current record. -/
theorem update_patch_iff_settings_nonempty_witness :
    (reconcile (clientOps "v")
        ⟨"foo", some [("enabled", JVal.bool true)], Lifecycle.present⟩
        ⟨[[("clientUsername", JVal.str "foo"), ("enabled", JVal.bool true)]]⟩).2.1 =
      [SolaceClientTask.get_func "v",
       SolaceClientTask.update_func "v" "foo" (some [("enabled", JVal.bool true)])] ∧
    (SolaceClientTask.update_func "v" "foo" (some [("enabled", JVal.bool true)])).method =
      Method.PATCH ∧
    (SolaceClientTask.update_func "v" "foo" (some [("enabled", JVal.bool true)])).body =
      some [("enabled", JVal.bool true)] ∧
    (reconcile (clientOps "v")
        ⟨"foo", some [("enabled", JVal.bool true)], Lifecycle.present⟩
        ⟨[[("clientUsername", JVal.str "foo"), ("enabled", JVal.bool true)]]⟩).1.changed =
      true :=
  (update_patch_iff_settings_nonempty "v" "foo" (some [("enabled", JVal.bool true)])
    ⟨[[("clientUsername", JVal.str "foo"), ("enabled", JVal.bool true)]]⟩
    ⟨[[("msgVpnName", JVal.str "foo"), ("enabled", JVal.bool true)]]⟩
    [("clientUsername", JVal.str "foo"), ("enabled", JVal.bool true)]
    [("msgVpnName", JVal.str "foo"), ("enabled", JVal.bool true)]
    rfl rfl).1.1 rfl

/-- C4: every PATCH issued by reconcile carries exactly desired.settings
as its body: every field of desired.settings and no other field, nothing
defaulted and nothing from the current record. -/
theorem patch_body_is_exactly_settings (vpn name : String) (settings : Option SDict)
    (bc bv : Broker) (rc rv : SDict)
    (hc : findRecord bc.records "clientUsername" name = some rc)
    (hv : findRecord bv.records "msgVpnName" name = some rv)
    (hne : (settings.getD []).isEmpty = false) :
    ((reconcile (clientOps vpn) ⟨name, settings, Lifecycle.present⟩ bc).2.1 =
        [SolaceClientTask.get_func vpn, SolaceClientTask.update_func vpn name settings] ∧
      (SolaceClientTask.update_func vpn name settings).body = settings ∧
      ∀ k, SDict.lookup ((SolaceClientTask.update_func vpn name settings).body.getD []) k =
        SDict.lookup (settings.getD []) k) ∧
    ((reconcile vpnOps ⟨name, settings, Lifecycle.present⟩ bv).2.1 =
        [SolaceVpnTask.get_func, SolaceVpnTask.update_func name settings] ∧
      (SolaceVpnTask.update_func name settings).body = settings ∧
      ∀ k, SDict.lookup ((SolaceVpnTask.update_func name settings).body.getD []) k =
        SDict.lookup (settings.getD []) k) := by
  constructor
  · refine ⟨?_, rfl, fun k => rfl⟩
    rw [client_reconcile_update vpn name settings bc rc hc hne]
  · refine ⟨?_, rfl, fun k => rfl⟩
    rw [vpn_reconcile_update name settings bv rv hv hne]

/-- Witness for C4 on a one-record appliance with settings
{maxConnectionCount:7}. -/
theorem patch_body_is_exactly_settings_witness :
    (reconcile vpnOps ⟨"foo", some [("maxConnectionCount", JVal.num 7)], Lifecycle.present⟩
        ⟨[[("msgVpnName", JVal.str "foo")]]⟩).2.1 =
      [SolaceVpnTask.get_func,
       SolaceVpnTask.update_func "foo" (some [("maxConnectionCount", JVal.num 7)])] ∧
    (SolaceVpnTask.update_func "foo" (some [("maxConnectionCount", JVal.num 7)])).body =
      some [("maxConnectionCount", JVal.num 7)] ∧
    ∀ k, SDict.lookup ((SolaceVpnTask.update_func "foo"
        (some [("maxConnectionCount", JVal.num 7)])).body.getD []) k =
      SDict.lookup ((some [("maxConnectionCount", JVal.num 7)] : Option SDict).getD []) k :=
  (patch_body_is_exactly_settings "v" "foo" (some [("maxConnectionCount", JVal.num 7)])
    ⟨[[("clientUsername", JVal.str "foo")]]⟩ ⟨[[("msgVpnName", JVal.str "foo")]]⟩
    [("clientUsername", JVal.str "foo")] [("msgVpnName", JVal.str "foo")]
    rfl rfl rfl).2

/-- Whenever the GET is not mutating and the three mutating constructors
produce mutating requests, the Outcome is faithful: a mutating call means
changed=true with the appliance's response body, no mutating call means
changed=false with a null response. -/
theorem outcome_spec_for (ops : TaskOps) (desired : DesiredState) (b : Broker)
    (hg : ops.getReq.isMutating = false)
    (hcr : (ops.createReq desired.naturalKey desired.settings).isMutating = true)
    (hup : (ops.updateReq desired.naturalKey desired.settings).isMutating = true)
    (hde : (ops.deleteReq desired.naturalKey).isMutating = true) :
    ((reconcile ops desired b).2.1.filter Request.isMutating = [] ∧
      (reconcile ops desired b).1.changed = false ∧
      (reconcile ops desired b).1.response = none) ∨
    (∃ req, (reconcile ops desired b).2.1.filter Request.isMutating = [req] ∧
      (reconcile ops desired b).1.changed = true ∧
      (reconcile ops desired b).1.response =
        some (Broker.apply b ops.keyField desired.naturalKey req).2) := by
  rcases reconcile_cases ops desired b with h | ⟨req, hreq, h⟩
  · rw [h]
    exact Or.inl ⟨by simp [List.filter, hg], rfl, rfl⟩
  · rw [h]
    have hm : req.isMutating = true := by
      rcases hreq with h1 | h1 | h1
      · rw [h1]; exact hcr
      · rw [h1]; exact hup
      · rw [h1]; exact hde
    exact Or.inr ⟨req, by simp [List.filter, hg, hm], rfl, rfl⟩

/-- C7: for every invocation of either module, either no mutating request
was issued and the Outcome is changed=false with a null response, or
exactly one mutating request was issued and the Outcome is changed=true
with the appliance's response body for that request. -/
theorem outcome_reflects_mutating_call (vpn : String) (desired : DesiredState)
    (bc bv : Broker) :
    (((reconcile (clientOps vpn) desired bc).2.1.filter Request.isMutating = [] ∧
        (reconcile (clientOps vpn) desired bc).1.changed = false ∧
        (reconcile (clientOps vpn) desired bc).1.response = none) ∨
      (∃ req, (reconcile (clientOps vpn) desired bc).2.1.filter Request.isMutating = [req] ∧
        (reconcile (clientOps vpn) desired bc).1.changed = true ∧
        (reconcile (clientOps vpn) desired bc).1.response =
          some (Broker.apply bc "clientUsername" desired.naturalKey req).2)) ∧
    (((reconcile vpnOps desired bv).2.1.filter Request.isMutating = [] ∧
        (reconcile vpnOps desired bv).1.changed = false ∧
        (reconcile vpnOps desired bv).1.response = none) ∨
      (∃ req, (reconcile vpnOps desired bv).2.1.filter Request.isMutating = [req] ∧
        (reconcile vpnOps desired bv).1.changed = true ∧
        (reconcile vpnOps desired bv).1.response =
          some (Broker.apply bv "msgVpnName" desired.naturalKey req).2)) :=
  ⟨outcome_spec_for (clientOps vpn) desired bc rfl rfl rfl rfl,
   outcome_spec_for vpnOps desired bv rfl rfl rfl rfl⟩

/-- C8: an invocation of the client module missing the mandatory msg_vpn
parameter — and either module missing name — fails with a configuration
error before any HTTP request is issued, leaving the appliance untouched. -/
theorem missing_required_param_fails_before_network (inpC : ClientModuleInput)
    (inpV : VpnModuleInput) (bc bv : Broker) :
    (inpC.msg_vpn = none →
      (∃ p, (solace_client.run_module inpC bc).1 = ModuleResult.configError p) ∧
      (solace_client.run_module inpC bc).2.1 = [] ∧
      (solace_client.run_module inpC bc).2.2 = bc) ∧
    (inpC.name = none →
      (∃ p, (solace_client.run_module inpC bc).1 = ModuleResult.configError p) ∧
      (solace_client.run_module inpC bc).2.1 = [] ∧
      (solace_client.run_module inpC bc).2.2 = bc) ∧
    (inpV.name = none →
      (∃ p, (solace_vpn.run_module inpV bv).1 = ModuleResult.configError p) ∧
      (solace_vpn.run_module inpV bv).2.1 = [] ∧
      (solace_vpn.run_module inpV bv).2.2 = bv) := by
  refine ⟨fun h => ?_, fun h => ?_, fun h => ?_⟩
  · cases hn : inpC.name with
    | none =>
      simp [solace_client.run_module, validateRequired, clientModuleArgs,
        ClientModuleInput.provided, List.find?, hn, h]
    | some nm =>
      simp [solace_client.run_module, validateRequired, clientModuleArgs,
        ClientModuleInput.provided, List.find?, hn, h]
  · simp [solace_client.run_module, validateRequired, clientModuleArgs,
      ClientModuleInput.provided, List.find?, h]
  · simp [solace_vpn.run_module, validateRequired, vpnModuleArgs,
      VpnModuleInput.provided, List.find?, h]

/-- Witness for C8: name given, msg_vpn omitted — the client module
reports a configuration error and issues no request. -/
theorem missing_required_param_fails_before_network_witness :
    (∃ p, (solace_client.run_module ⟨some "foo", none, none, Lifecycle.present⟩ ⟨[]⟩).1 =
        ModuleResult.configError p) ∧
    (solace_client.run_module ⟨some "foo", none, none, Lifecycle.present⟩ ⟨[]⟩).2.1 = [] ∧
    (solace_client.run_module ⟨some "foo", none, none, Lifecycle.present⟩ ⟨[]⟩).2.2 = ⟨[]⟩ :=
  (missing_required_param_fails_before_network ⟨some "foo", none, none, Lifecycle.present⟩
    ⟨some "x", none, Lifecycle.present⟩ ⟨[]⟩ ⟨[]⟩).1 rfl

/-- C2 (amended): with lifecycle=present on an object that does not yet
exist, the first reconcile creates it and reports changed=true; the
second reconcile with the identical DesiredState reports changed=false
exactly when desired.settings is empty or omitted — with non-empty
settings it issues its unconditional PATCH and reports changed=true
again. -/
theorem reconcile_twice_changed_flags (vpn name : String) (settings : Option SDict)
    (bc bv : Broker)
    (hc : findRecord bc.records "clientUsername" name = none)
    (hv : findRecord bv.records "msgVpnName" name = none) :
    ((reconcile (clientOps vpn) ⟨name, settings, Lifecycle.present⟩ bc).1.changed = true ∧
      (reconcile (clientOps vpn) ⟨name, settings, Lifecycle.present⟩
        (reconcile (clientOps vpn) ⟨name, settings, Lifecycle.present⟩ bc).2.2).1.changed =
        !(settings.getD []).isEmpty) ∧
    ((reconcile vpnOps ⟨name, settings, Lifecycle.present⟩ bv).1.changed = true ∧
      (reconcile vpnOps ⟨name, settings, Lifecycle.present⟩
        (reconcile vpnOps ⟨name, settings, Lifecycle.present⟩ bv).2.2).1.changed =
        !(settings.getD []).isEmpty) := by
  constructor
  · rw [client_reconcile_create vpn name settings bc hc]
    refine ⟨rfl, ?_⟩
    have hb : SDict.lookup (merge_dicts [("enabled", JVal.bool true)]
        [("clientUsername", JVal.str name)] settings) "clientUsername"
        = some (JVal.str name) := merge_dicts_lookup_mandatory _ _ _ _
    have h2 : findRecord (bc.records ++ [merge_dicts [("enabled", JVal.bool true)]
        [("clientUsername", JVal.str name)] settings]) "clientUsername" name
        = some (merge_dicts [("enabled", JVal.bool true)]
            [("clientUsername", JVal.str name)] settings) :=
      findRecord_append_single _ _ _ _ hc hb
    cases hemp : (settings.getD []).isEmpty with
    | true => rw [client_reconcile_present_noop vpn name settings _ _ h2 hemp]; rfl
    | false => rw [client_reconcile_update vpn name settings _ _ h2 hemp]; rfl
  · rw [vpn_reconcile_create name settings bv hv]
    refine ⟨rfl, ?_⟩
    have hb : SDict.lookup (merge_dicts [("enabled", JVal.bool true)]
        [("msgVpnName", JVal.str name)] settings) "msgVpnName"
        = some (JVal.str name) := merge_dicts_lookup_mandatory _ _ _ _
    have h2 : findRecord (bv.records ++ [merge_dicts [("enabled", JVal.bool true)]
        [("msgVpnName", JVal.str name)] settings]) "msgVpnName" name
        = some (merge_dicts [("enabled", JVal.bool true)]
            [("msgVpnName", JVal.str name)] settings) :=
      findRecord_append_single _ _ _ _ hv hb
    cases hemp : (settings.getD []).isEmpty with
    | true => rw [vpn_reconcile_present_noop name settings _ _ h2 hemp]; rfl
    | false => rw [vpn_reconcile_update name settings _ _ h2 hemp]; rfl

/-- Witness for the amended C2: with omitted settings the first call on
VPN "foo" reports changed=true and the identical second call reports
changed=false. -/
theorem reconcile_twice_changed_flags_witness :
    (reconcile vpnOps ⟨"foo", none, Lifecycle.present⟩ ⟨[]⟩).1.changed = true ∧
    (reconcile vpnOps ⟨"foo", none, Lifecycle.present⟩
      (reconcile vpnOps ⟨"foo", none, Lifecycle.present⟩ ⟨[]⟩).2.2).1.changed =
      !((none : Option SDict).getD []).isEmpty :=
  (reconcile_twice_changed_flags "v" "foo" none ⟨[]⟩ ⟨[]⟩ rfl rfl).2

/-- C2 counterexample: the claim as stated fails for non-empty settings.
On an empty appliance, creating VPN "foo" with settings {enabled:true}
reports changed=true, and the identical second invocation issues the
unconditional PATCH and again reports changed=true, not changed=false. -/
theorem reconcile_twice_changed_counterexample :
    (reconcile vpnOps ⟨"foo", some [("enabled", JVal.bool true)], Lifecycle.present⟩
      ⟨[]⟩).1.changed = true ∧
    (reconcile vpnOps ⟨"foo", some [("enabled", JVal.bool true)], Lifecycle.present⟩
      (reconcile vpnOps ⟨"foo", some [("enabled", JVal.bool true)], Lifecycle.present⟩
        ⟨[]⟩).2.2).1.changed = true :=
  ⟨rfl, rfl⟩

end Solace
